import Mathlib

/-!
Verification of the kinematic-bicycle-model path-tracking simulator.

The orchestration layer (the classes Simulation, Path, Car and the function
animate in animate.py) is embedded directly from the source.  The three
numerical components it imports (generate_cubic_spline from libs,
StanleyController.stanley_control from libs, and
KinematicBicycleModel.kinematic_model from kinematic_model) are not present
under src/, so they are modelled from the specification, as are the analytic
primitives they use.  Floating-point numbers are modelled by an arbitrary
linear ordered field; all definitions are generic in that field so that they
can be evaluated on rational inputs.
-/

/-- Modelled from the spec: the analytic primitives used by the missing
numerical modules (libs and kinematic_model are imported by animate.py but are
not under src/).  The fields stand for the mathematical constant pi, the
trigonometric functions, the two-argument arctangent, the square root, the
normalisation of an angle into the range from minus pi to pi, the cubic-spline
interpolant through a list of knots together with its first and second
derivatives, and the small numerical tolerance of the steering-bound check of
the vehicle model (its value is left unspecified by the spec). -/
structure MathOps (α : Type) where
  pi : α
  sin : α → α
  cos : α → α
  tan : α → α
  atan2 : α → α → α
  sqrt : α → α
  normalizeAngle : α → α
  interp : List α → List α → α → α
  interpD : List α → List α → α → α
  interpDD : List α → List α → α → α
  steerTol : α

/-- The error kinds of section 7 of the spec: degenerate path-generation
input, a steering command outside the tolerance of the configured bound, and
a controller invocation against a zero-length path. -/
inductive SimError : Type where
  | degenerateInput : SimError
  | invalidSteering : SimError
  | emptyPath : SimError
deriving DecidableEq

/-- Conversion from degrees to radians, as math.radians in animate.py. -/
def radians {α : Type} [LinearOrderedField α] (ops : MathOps α) (d : α) : α :=
  d * ops.pi / 180

/-- Clamping of a value to a closed interval, as numpy clip. -/
def clip {α : Type} [LinearOrderedField α] (lo hi x : α) : α :=
  min (max x lo) hi

/-- Helper of the first-minimal-index search: walks the remaining distances,
keeping the index of the first strictly smallest value seen so far. -/
def argminAux {α : Type} [LinearOrder α] : ℕ → ℕ → α → List α → ℕ
  | _, bi, _, [] => bi
  | i, bi, bv, d :: rest =>
      if d < bv then argminAux (i + 1) i d rest else argminAux (i + 1) bi bv rest

/-- Index of the first minimal element of a list (0 on the empty list), as
numpy argmin. -/
def argminIdx {α : Type} [LinearOrder α] : List α → ℕ
  | [] => 0
  | d :: rest => argminAux 1 0 d rest

/-- Modelled from the spec (section 4.1): the straight-line distances between
consecutive waypoints. -/
def chordLengths {α : Type} [LinearOrderedField α] (ops : MathOps α)
    (wps : List (α × α)) : List α :=
  (wps.zip wps.tail).map fun p =>
    ops.sqrt ((p.2.1 - p.1.1) ^ 2 + (p.2.2 - p.1.2) ^ 2)

/-- Modelled from the spec (section 4.1): the total chord length of a
waypoint sequence. -/
def totalChordLength {α : Type} [LinearOrderedField α] (ops : MathOps α)
    (wps : List (α × α)) : α :=
  (chordLengths ops wps).sum

/-- Modelled from the spec (section 4.1): the cumulative chord-length
parameter of each waypoint, used as the spline knots. -/
def chordKnots {α : Type} [LinearOrderedField α] (ops : MathOps α)
    (wps : List (α × α)) : List α :=
  (List.range wps.length).map fun i => ((chordLengths ops wps).take i).sum

/-- Modelled from the spec (sections 4.1 and 8): the dense fixed-step
arc-length grid from 0 to the total chord length, inclusive of the final
point, with floor (total / ds) + 1 samples; every step is ds except possibly
the final one, which reaches the total chord length exactly. -/
def sampleGrid {α : Type} [LinearOrderedField α] [FloorRing α]
    (total ds : α) : List α :=
  (List.range ((⌊total / ds⌋).toNat + 1)).map fun i =>
    if i = (⌊total / ds⌋).toNat then total else (i : α) * ds

/-- Modelled from the spec (section 4.1): the signed curvature of the spline
at one arc-length value. -/
def curvatureAt {α : Type} [LinearOrderedField α] (ops : MathOps α)
    (s xs ys : List α) (t : α) : α :=
  (ops.interpD s xs t * ops.interpDD s ys t -
      ops.interpD s ys t * ops.interpDD s xs t) /
    ops.sqrt ((ops.interpD s xs t ^ 2 + ops.interpD s ys t ^ 2) ^ 3)

/-- Modelled from the spec: generate_cubic_spline from libs, imported by
animate.py but missing from src/.  Given the x and y coordinate lists of the
waypoints and a sampling interval ds, it fails with the degenerate-input
error exactly when fewer than 2 distinct waypoints are supplied or the total
chord length is zero, and otherwise returns the sampled positions, headings
and curvatures of the two coordinate splines parametrized by cumulative
chord length, evaluated on the fixed-step arc-length grid. -/
def generate_cubic_spline {α : Type} [LinearOrderedField α] [FloorRing α]
    [DecidableEq α] (ops : MathOps α) (xs ys : List α) (ds : α) :
    Except SimError (List α × List α × List α × List α) :=
  let wps := xs.zip ys
  if wps.dedup.length < 2 ∨ totalChordLength ops wps = 0 then
    .error .degenerateInput
  else
    let s := chordKnots ops wps
    let grid := sampleGrid (totalChordLength ops wps) ds
    .ok (grid.map (ops.interp s xs),
         grid.map (ops.interp s ys),
         grid.map (fun t => ops.atan2 (ops.interpD s ys t) (ops.interpD s xs t)),
         grid.map (curvatureAt ops s xs ys))

/-- The Path class of animate.py (lines 23 to 33) minus the csv reading,
which is input handling outside the core: the path is generated once from the
parsed waypoint coordinate lists with ds = 0.05, and the curvature component
of the result is discarded. -/
def mkPath {α : Type} [LinearOrderedField α] [FloorRing α] [DecidableEq α]
    (ops : MathOps α) (xs ys : List α) :
    Except SimError (List α × List α × List α) :=
  (generate_cubic_spline ops xs ys (5 / 100)).map fun p =>
    (p.1, p.2.1, p.2.2.1)

/-- Modelled from the spec (section 4.2): the front-axle x position, the pose
projected forward by half the wheelbase along the current yaw. -/
def frontAxleX {α : Type} [LinearOrderedField α] (ops : MathOps α)
    (wheelbase x yaw : α) : α :=
  x + wheelbase / 2 * ops.cos yaw

/-- Modelled from the spec (section 4.2): the front-axle y position. -/
def frontAxleY {α : Type} [LinearOrderedField α] (ops : MathOps α)
    (wheelbase y yaw : α) : α :=
  y + wheelbase / 2 * ops.sin yaw

/-- Modelled from the spec (section 4.2): the index of the path sample
nearest to the front axle, found by a full linear scan. -/
def targetIdx {α : Type} [LinearOrderedField α] (ops : MathOps α)
    (px py : List α) (fx fy : α) : ℕ :=
  argminIdx ((px.zip py).map fun p =>
    ops.sqrt ((p.1 - fx) ^ 2 + (p.2 - fy) ^ 2))

/-- Modelled from the spec (section 4.2): the signed cross-track error, the
perpendicular signed distance from the front axle to the path heading line
at the nearest sample. -/
def crossTrackAt {α : Type} [LinearOrderedField α] (ops : MathOps α)
    (px py pyaw : List α) (tid : ℕ) (fx fy : α) : α :=
  ops.cos (pyaw.getD tid 0) * (fy - py.getD tid 0) -
    ops.sin (pyaw.getD tid 0) * (fx - px.getD tid 0)

/-- Modelled from the spec (section 4.2): the heading error, the normalised
difference between the path yaw at the nearest sample and the vehicle yaw. -/
def headingError {α : Type} [LinearOrderedField α] (ops : MathOps α)
    (pyaw : List α) (tid : ℕ) (yaw : α) : α :=
  ops.normalizeAngle (pyaw.getD tid 0 - yaw)

/-- Modelled from the spec (sections 4.2 and 7): the velocity-softened
denominator of the cross-track correction term. -/
def stanleyDenom {α : Type} [LinearOrderedField α] (ksoft v : α) : α :=
  ksoft + v

/-- Modelled from the spec (section 4.2): the unclamped steering command
before the steering-rate term, namely the heading error plus the softened
cross-track correction plus the yaw-rate damping term. -/
def rawSteerCmd {α : Type} [LinearOrderedField α] (ops : MathOps α)
    (k ksoft kyaw wheelbase he cte v delta : α) : α :=
  he + ops.atan2 (k * cte) (stanleyDenom ksoft v) +
    kyaw * (v * ops.tan delta / wheelbase)

/-- Modelled from the spec: StanleyController.stanley_control from libs,
imported by animate.py but missing from src/.  Given the controller gains,
the steering bound, the wheelbase, the path samples and the current pose,
velocity and previous steering angle, it fails on a zero-length path and
otherwise returns the clamped steering command, the nearest-target index and
the signed cross-track error, following section 4.2 of the spec: target
search at the front axle, heading error plus softened cross-track arctangent
correction, yaw-rate damping term, steering-rate term, then clamping to the
steering bound. -/
def stanley_control {α : Type} [LinearOrderedField α] (ops : MathOps α)
    (k ksoft kyaw ksteer max_steer wheelbase : α) (px py pyaw : List α)
    (x y yaw v delta : α) : Except SimError (α × ℕ × α) :=
  if px = [] then .error .emptyPath
  else
    let fx := x + wheelbase / 2 * ops.cos yaw
    let fy := y + wheelbase / 2 * ops.sin yaw
    let tid := argminIdx ((px.zip py).map fun p =>
      ops.sqrt ((p.1 - fx) ^ 2 + (p.2 - fy) ^ 2))
    let cte := ops.cos (pyaw.getD tid 0) * (fy - py.getD tid 0) -
      ops.sin (pyaw.getD tid 0) * (fx - px.getD tid 0)
    let he := ops.normalizeAngle (pyaw.getD tid 0 - yaw)
    let raw := he + ops.atan2 (k * cte) (ksoft + v) +
      kyaw * (v * ops.tan delta / wheelbase)
    let cmd := raw + ksteer * (raw - delta)
    .ok (clip (-max_steer) max_steer cmd, tid, cte)

/-- Modelled from the spec: KinematicBicycleModel.kinematic_model from the
kinematic_model module, imported by animate.py but missing from src/.
Following sections 4.3 and 7 of the spec it rejects a steering command whose
magnitude exceeds the steering bound by more than the small tolerance, and
otherwise integrates one explicit-Euler step: the velocity by the throttle
minus rolling resistance minus aerodynamic drag, the yaw by the bicycle yaw
rate, the position by the current velocity along the current yaw.  It
returns the new position, normalised yaw and velocity followed by the
unaltered steering angle and the yaw rate. -/
def kinematic_model {α : Type} [LinearOrderedField α] (ops : MathOps α)
    (wheelbase max_steer dt c_r c_a : α) (x y yaw v throttle delta : α) :
    Except SimError (α × α × α × α × α × α) :=
  if max_steer + ops.steerTol < |delta| then .error .invalidSteering
  else
    .ok (x + v * ops.cos yaw * dt,
         y + v * ops.sin yaw * dt,
         ops.normalizeAngle (yaw + v * ops.tan delta / wheelbase * dt),
         v + (throttle - c_r * v - c_a * v ^ 2) * dt,
         delta,
         v * ops.tan delta / wheelbase)

/-- The mutable state and configuration of the Car class of animate.py
(lines 35 to 73), minus the fields that exist only for rendering (the body
dimensions, the colour and the plot objects), which the spec excludes from
the core. -/
structure Car (α : Type) where
  x : α
  y : α
  yaw : α
  v : α
  delta : α
  omega : α
  wheelbase : α
  max_steer : α
  dt : α
  c_r : α
  c_a : α
  px : List α
  py : List α
  pyaw : List α
  k : α
  ksoft : α
  kyaw : α
  ksteer : α
  crosstrack_error : Option α
  target_id : Option ℕ
deriving DecidableEq

/-- The constructor of the Car class of animate.py (lines 37 to 61): the
initial pose is supplied, velocity, steering angle and yaw rate start at
zero, and the model and tracker parameters carry the fixed values of the
source. -/
def mkCar {α : Type} [LinearOrderedField α] (ops : MathOps α)
    (init_x init_y init_yaw : α) (px py pyaw : List α) (dt : α) : Car α :=
  { x := init_x, y := init_y, yaw := init_yaw, v := 0, delta := 0, omega := 0,
    wheelbase := 296 / 100, max_steer := radians ops 33, dt := dt,
    c_r := 1 / 100, c_a := 2,
    px := px, py := py, pyaw := pyaw,
    k := 8, ksoft := 1, kyaw := 1 / 100, ksteer := 0,
    crosstrack_error := none, target_id := none }

/-- Car.drive of animate.py (lines 75 to 81): the throttle is drawn inside
the method from uniform(150, 200); the ambient random stream is modelled as
a function from the frame number to the drawn value.  The tracker is then
invoked on the current state, its steering command, target index and
cross-track error are stored, and the kinematic model is invoked with that
same steering command; its new pose and velocity are stored while its last
two return values, the steering angle and the yaw rate, are discarded. -/
def drive {α : Type} [LinearOrderedField α] (ops : MathOps α)
    (rand : ℕ → α) (frame : ℕ) (car : Car α) : Except SimError (Car α) :=
  match stanley_control ops car.k car.ksoft car.kyaw car.ksteer car.max_steer
      car.wheelbase car.px car.py car.pyaw car.x car.y car.yaw car.v car.delta with
  | .error e => .error e
  | .ok (d, tid, cte) =>
    match kinematic_model ops car.wheelbase car.max_steer car.dt car.c_r
        car.c_a car.x car.y car.yaw car.v (rand frame) d with
    | .error e => .error e
    | .ok (x2, y2, yaw2, v2, _, _) =>
      .ok { car with
            x := x2
            y := y2
            yaw := yaw2
            v := v2
            delta := d
            crosstrack_error := some cte
            target_id := some tid }

/-- Written from the words of the spec (sections 4.4 and 6): one control-loop
tick whose per-tick throttle is supplied by the host as an opaque scalar;
the tick calls the lateral controller first and the vehicle model second. -/
def hostTick {α : Type} [LinearOrderedField α] (ops : MathOps α)
    (car : Car α) (throttle : α) : Except SimError (Car α) :=
  match stanley_control ops car.k car.ksoft car.kyaw car.ksteer car.max_steer
      car.wheelbase car.px car.py car.pyaw car.x car.y car.yaw car.v car.delta with
  | .error e => .error e
  | .ok (d, tid, cte) =>
    match kinematic_model ops car.wheelbase car.max_steer car.dt car.c_r
        car.c_a car.x car.y car.yaw car.v throttle d with
    | .error e => .error e
    | .ok (x2, y2, yaw2, v2, _, _) =>
      .ok { car with
            x := x2
            y := y2
            yaw := yaw2
            v := v2
            delta := d
            crosstrack_error := some cte
            target_id := some tid }

/-- The animation loop of animate.py (lines 109 to 146, driven by
FuncAnimation in main): frame n runs exactly one tick, Car.drive, after the
n previous frames, in frame order; everything else the frame does is
rendering. -/
def simulate {α : Type} [LinearOrderedField α] (ops : MathOps α)
    (rand : ℕ → α) (car : Car α) : ℕ → Except SimError (Car α)
  | 0 => .ok car
  | n + 1 => (simulate ops rand car n).bind fun c => drive ops rand n c

/-- A concrete computable instance of the analytic primitives over the
rationals, used to evaluate the embedding on explicit inputs.  The fields
are simple rational stand-ins for the transcendental operations; every
generic theorem below can be specialised to this instance and then computed
on literals. -/
def tinyOps : MathOps ℚ :=
  { pi := 180
    sin := fun _ => 0
    cos := fun _ => 1
    tan := fun _ => 0
    atan2 := fun a b => a - b
    sqrt := fun q => q
    normalizeAngle := fun q => q
    interp := fun _ _ t => t
    interpD := fun _ _ _ => 1
    interpDD := fun _ _ _ => 0
    steerTol := 1 }

/-- A concrete vehicle state over the rationals with small parameter values,
used as the explicit input of the witnesses and counterexamples.  The yaw
rate field is deliberately nonzero so that its preservation is visible. -/
def demoCar : Car ℚ :=
  { x := 0
    y := 0
    yaw := 0
    v := 2
    delta := 0
    omega := 5
    wheelbase := 2
    max_steer := 1
    dt := 1
    c_r := 0
    c_a := 0
    px := [0, 1]
    py := [0, 0]
    pyaw := [0, 0]
    k := 1
    ksoft := 1
    kyaw := 0
    ksteer := 0
    crosstrack_error := none
    target_id := none }

/-- The state demoCar reaches after one tick of drive under the tinyOps
stand-ins when the drawn throttle is t, written out explicitly. -/
def demoAfter (t : ℚ) : Car ℚ :=
  { x := 2
    y := 0
    yaw := 0
    v := 2 + t
    delta := -1
    omega := 5
    wheelbase := 2
    max_steer := 1
    dt := 1
    c_r := 0
    c_a := 0
    px := [0, 1]
    py := [0, 0]
    pyaw := [0, 0]
    k := 1
    ksoft := 1
    kyaw := 0
    ksteer := 0
    crosstrack_error := some 0
    target_id := some 1 }

theorem stanley_demo :
    stanley_control tinyOps 1 1 0 0 1 2 [0, 1] [0, 0] [0, 0] 0 0 0 2 0 =
      .ok (-1, 1, 0) := by
  rw [stanley_control, if_neg (by simp)]
  norm_num [tinyOps, argminIdx, argminAux, clip, List.getD, min_def, max_def]

theorem drive_demo (t : ℚ) :
    drive tinyOps (fun _ => t) 0 demoCar = .ok (demoAfter t) := by
  have hcar : stanley_control tinyOps demoCar.k demoCar.ksoft demoCar.kyaw
      demoCar.ksteer demoCar.max_steer demoCar.wheelbase demoCar.px demoCar.py
      demoCar.pyaw demoCar.x demoCar.y demoCar.yaw demoCar.v demoCar.delta =
      .ok (-1, 1, 0) := stanley_demo
  rw [drive, hcar]
  simp only [kinematic_model]
  rw [if_neg (by norm_num [demoCar, tinyOps])]
  norm_num [demoCar, tinyOps, demoAfter]

/-! ## Helper lemmas -/

theorem abs_clip_le {α : Type} [LinearOrderedField α] (m x : α) (hm : 0 ≤ m) :
    |clip (-m) m x| ≤ m := by
  rw [clip, abs_le]
  exact ⟨le_min (le_max_right x (-m)) (neg_le_self hm), min_le_right _ _⟩

theorem stanleyOkAbsLe {α : Type} [LinearOrderedField α] (ops : MathOps α)
    (k ksoft kyaw ksteer ms wb : α) (px py pyaw : List α)
    (x y yaw v delta d : α) (tid : ℕ) (cte : α) (hm : 0 ≤ ms)
    (h : stanley_control ops k ksoft kyaw ksteer ms wb px py pyaw
        x y yaw v delta = .ok (d, tid, cte)) :
    |d| ≤ ms := by
  simp only [stanley_control] at h
  by_cases hp : px = []
  · rw [if_pos hp] at h
    simp at h
  · rw [if_neg hp] at h
    simp only [Except.ok.injEq, Prod.mk.injEq] at h
    obtain ⟨h1, -, -⟩ := h
    rw [← h1]
    exact abs_clip_le ms _ hm

theorem drive_ok_shape {α : Type} [LinearOrderedField α] (ops : MathOps α)
    (rand : ℕ → α) (frame : ℕ) (car s2 : Car α)
    (h : drive ops rand frame car = .ok s2) :
    ∃ d tid cte,
      stanley_control ops car.k car.ksoft car.kyaw car.ksteer car.max_steer
          car.wheelbase car.px car.py car.pyaw car.x car.y car.yaw car.v
          car.delta = .ok (d, tid, cte) ∧
      ¬ (car.max_steer + ops.steerTol < |d|) ∧
      s2 = { car with
             x := car.x + car.v * ops.cos car.yaw * car.dt
             y := car.y + car.v * ops.sin car.yaw * car.dt
             yaw := ops.normalizeAngle
               (car.yaw + car.v * ops.tan d / car.wheelbase * car.dt)
             v := car.v +
               (rand frame - car.c_r * car.v - car.c_a * car.v ^ 2) * car.dt
             delta := d
             crosstrack_error := some cte
             target_id := some tid } := by
  rw [drive] at h
  cases hs : stanley_control ops car.k car.ksoft car.kyaw car.ksteer
      car.max_steer car.wheelbase car.px car.py car.pyaw car.x car.y car.yaw
      car.v car.delta with
  | error e =>
    rw [hs] at h
    simp at h
  | ok trip =>
    obtain ⟨d, tid, cte⟩ := trip
    rw [hs] at h
    dsimp only at h
    simp only [kinematic_model] at h
    by_cases hc : car.max_steer + ops.steerTol < |d|
    · rw [if_pos hc] at h
      simp at h
    · rw [if_neg hc] at h
      dsimp only at h
      simp only [Except.ok.injEq] at h
      exact ⟨d, tid, cte, rfl, hc, h.symm⟩

theorem sampleGrid_length {α : Type} [LinearOrderedField α] [FloorRing α]
    (total ds : α) :
    (sampleGrid total ds).length = (⌊total / ds⌋).toNat + 1 := by
  simp [sampleGrid]

theorem sampleGrid_getD {α : Type} [LinearOrderedField α] [FloorRing α]
    (total ds : α) (j : ℕ) (hj : j < (⌊total / ds⌋).toNat) :
    (sampleGrid total ds).getD j 0 = (j : α) * ds := by
  have hlen : j < (sampleGrid total ds).length := by
    rw [sampleGrid_length]
    exact Nat.lt_succ_of_lt hj
  rw [List.getD_eq_getElem _ _ hlen]
  simp only [sampleGrid, List.getElem_map, List.getElem_range]
  rw [if_neg (Nat.ne_of_lt hj)]

/-! ## Claims -/

/-- Claim C2: on every tick the controller is invoked first, on the pre-tick
state, and the vehicle model second, receiving exactly the steering command
the controller produced on that same tick; and frame n plus one of the
animation loop runs exactly the one tick of frame n after the previous
frames, so no tick is skipped or reordered. -/
theorem c2_controller_then_model {α : Type} [LinearOrderedField α]
    (ops : MathOps α) (rand : ℕ → α) (frame n : ℕ) (car s2 : Car α)
    (h : drive ops rand frame car = .ok s2) :
    stanley_control ops car.k car.ksoft car.kyaw car.ksteer car.max_steer
        car.wheelbase car.px car.py car.pyaw car.x car.y car.yaw car.v
        car.delta = .ok (s2.delta, s2.target_id.getD 0, s2.crosstrack_error.getD 0) ∧
    kinematic_model ops car.wheelbase car.max_steer car.dt car.c_r car.c_a
        car.x car.y car.yaw car.v (rand frame) s2.delta =
      .ok (s2.x, s2.y, s2.yaw, s2.v, s2.delta,
           car.v * ops.tan s2.delta / car.wheelbase) ∧
    simulate ops rand car (n + 1) =
      (simulate ops rand car n).bind (fun c => drive ops rand n c) := by
  obtain ⟨d, tid, cte, hstan, hc, hs2⟩ := drive_ok_shape ops rand frame car s2 h
  subst hs2
  refine ⟨hstan, ?_, rfl⟩
  simp only [kinematic_model]
  rw [if_neg hc]

/-- Claim C2 witness: the two conjuncts evaluated on the explicit demo state
with a drawn throttle of 150 and three preceding frames. -/
theorem c2_controller_then_model_witness :
    stanley_control tinyOps demoCar.k demoCar.ksoft demoCar.kyaw
        demoCar.ksteer demoCar.max_steer demoCar.wheelbase demoCar.px
        demoCar.py demoCar.pyaw demoCar.x demoCar.y demoCar.yaw demoCar.v
        demoCar.delta =
      .ok ((demoAfter 150).delta, (demoAfter 150).target_id.getD 0,
        (demoAfter 150).crosstrack_error.getD 0) ∧
    kinematic_model tinyOps demoCar.wheelbase demoCar.max_steer demoCar.dt
        demoCar.c_r demoCar.c_a demoCar.x demoCar.y demoCar.yaw demoCar.v
        ((fun _ => (150 : ℚ)) 0) (demoAfter 150).delta =
      .ok ((demoAfter 150).x, (demoAfter 150).y, (demoAfter 150).yaw,
           (demoAfter 150).v, (demoAfter 150).delta,
           demoCar.v * tinyOps.tan (demoAfter 150).delta / demoCar.wheelbase) ∧
    simulate tinyOps (fun _ => (150 : ℚ)) demoCar (3 + 1) =
      (simulate tinyOps (fun _ => (150 : ℚ)) demoCar 3).bind
        (fun c => drive tinyOps (fun _ => (150 : ℚ)) 3 c) :=
  c2_controller_then_model tinyOps (fun _ => (150 : ℚ)) 0 3 demoCar
    (demoAfter 150) (drive_demo 150)

/-- Claim C5: with the ksoft value the Car constructor fixes (1.0), the
velocity-softened denominator of the cross-track correction term equals 1
when the velocity is zero, in particular it is nonzero, so the controller
never divides by zero there. -/
theorem c5_softened_denominator_nonzero {α : Type} [LinearOrderedField α]
    (ops : MathOps α) (x0 y0 yaw0 : α) (px py pyaw : List α) (dt v : α)
    (hv : v = 0) :
    stanleyDenom (mkCar ops x0 y0 yaw0 px py pyaw dt).ksoft v = 1 ∧
    stanleyDenom (mkCar ops x0 y0 yaw0 px py pyaw dt).ksoft v ≠ 0 := by
  subst hv
  constructor
  · simp [mkCar, stanleyDenom]
  · simp [mkCar, stanleyDenom]

/-- Claim C5 witness: the denominator evaluated on explicit inputs at zero
velocity. -/
theorem c5_softened_denominator_nonzero_witness :
    stanleyDenom (mkCar tinyOps 0 0 0 [0] [0] [0] 1).ksoft (0 : ℚ) = 1 ∧
    stanleyDenom (mkCar tinyOps 0 0 0 [0] [0] [0] 1).ksoft (0 : ℚ) ≠ 0 :=
  c5_softened_denominator_nonzero tinyOps 0 0 0 [0] [0] [0] 1 0 rfl

/-- Claim C7: the vehicle model fails with the invalid-steering error
exactly on steering commands whose magnitude exceeds the bound by more than
the small tolerance, and on commands within the bound it returns the
received steering angle unaltered as its fifth output. -/
theorem c7_invalid_steering_rejected {α : Type} [LinearOrderedField α]
    (ops : MathOps α) (wb ms dt cr ca x y yaw v th d : α) :
    (ms + ops.steerTol < |d| →
      kinematic_model ops wb ms dt cr ca x y yaw v th d =
        .error .invalidSteering) ∧
    (|d| ≤ ms + ops.steerTol →
      kinematic_model ops wb ms dt cr ca x y yaw v th d =
        .ok (x + v * ops.cos yaw * dt, y + v * ops.sin yaw * dt,
             ops.normalizeAngle (yaw + v * ops.tan d / wb * dt),
             v + (th - cr * v - ca * v ^ 2) * dt, d,
             v * ops.tan d / wb)) := by
  constructor
  · intro h
    simp only [kinematic_model]
    rw [if_pos h]
  · intro h
    simp only [kinematic_model]
    rw [if_neg (not_lt.mpr h)]

/-- Claim C7 witness: the model rejects an explicit out-of-tolerance command
and keeps an explicit in-bound command unaltered. -/
theorem c7_invalid_steering_rejected_witness :
    kinematic_model tinyOps 2 1 1 0 0 0 0 0 2 150 5 =
      .error .invalidSteering ∧
    kinematic_model tinyOps 2 1 1 0 0 0 0 0 2 150 1 =
      .ok (0 + 2 * tinyOps.cos 0 * 1, 0 + 2 * tinyOps.sin 0 * 1,
           tinyOps.normalizeAngle (0 + 2 * tinyOps.tan 1 / 2 * 1),
           2 + (150 - 0 * 2 - 0 * 2 ^ 2) * 1, 1,
           2 * tinyOps.tan 1 / 2) :=
  ⟨(c7_invalid_steering_rejected tinyOps 2 1 1 0 0 0 0 0 2 150 5).1
      (by norm_num [tinyOps]),
   (c7_invalid_steering_rejected tinyOps 2 1 1 0 0 0 0 0 2 150 1).2
      (by norm_num [tinyOps])⟩

/-- Claim C8: one tick of Car.drive leaves every path sample array
unchanged; the path is shared read-only data. -/
theorem c8_path_immutable_per_tick {α : Type} [LinearOrderedField α]
    (ops : MathOps α) (rand : ℕ → α) (frame : ℕ) (car s2 : Car α)
    (h : drive ops rand frame car = .ok s2) :
    s2.px = car.px ∧ s2.py = car.py ∧ s2.pyaw = car.pyaw := by
  obtain ⟨d, tid, cte, hstan, hc, hs2⟩ := drive_ok_shape ops rand frame car s2 h
  subst hs2
  exact ⟨rfl, rfl, rfl⟩

/-- Claim C8 witness: the path arrays of the explicit demo state are intact
after one tick. -/
theorem c8_path_immutable_per_tick_witness :
    (demoAfter 150).px = demoCar.px ∧ (demoAfter 150).py = demoCar.py ∧
    (demoAfter 150).pyaw = demoCar.pyaw :=
  c8_path_immutable_per_tick tinyOps (fun _ => (150 : ℚ)) 0 demoCar
    (demoAfter 150) (drive_demo 150)

/-- Claim C9 (amended): in the source the per-tick throttle is not supplied
by the host: Car.drive draws it internally from uniform(150, 200), modelled
here as reading the ambient random stream at the frame number.  What does
hold is that, once drawn, the value crosses to the vehicle model as an
opaque scalar: a tick of drive coincides with the spec-described host tick
applied to the drawn value. -/
theorem c9_throttle_opaque_passthrough {α : Type} [LinearOrderedField α]
    (ops : MathOps α) (rand : ℕ → α) (frame : ℕ) (car : Car α) :
    drive ops rand frame car = hostTick ops car (rand frame) := rfl

/-- Claim C9 counterexample: with every host-visible input fixed (state,
path, controller and vehicle parameters), the outcome of one tick still
depends on the internal random stream: two draws inside the documented
uniform(150, 200) range give different outputs, so the throttle consumed by
the model is generated inside the control loop, not supplied by the host. -/
theorem c9_throttle_internal_counterexample :
    drive tinyOps (fun _ => (160 : ℚ)) 0 demoCar ≠
      drive tinyOps (fun _ => (190 : ℚ)) 0 demoCar := by
  rw [drive_demo 160, drive_demo 190]
  intro h
  have hv := congrArg Car.v (Except.ok.inj h)
  norm_num [demoAfter] at hv

/-- Claim C10: the yaw-rate field omega is initialised to zero by the Car
constructor and Car.drive discards the last two outputs of the kinematic
model, so a tick never changes omega and the yaw rate of the model is never
fed back. -/
theorem c10_omega_never_updated {α : Type} [LinearOrderedField α]
    (ops : MathOps α) (x0 y0 yaw0 : α) (px0 py0 pyaw0 : List α) (dt : α)
    (rand : ℕ → α) (frame : ℕ) (car s2 : Car α)
    (h : drive ops rand frame car = .ok s2) :
    (mkCar ops x0 y0 yaw0 px0 py0 pyaw0 dt).omega = 0 ∧
    s2.omega = car.omega := by
  obtain ⟨d, tid, cte, hstan, hc, hs2⟩ := drive_ok_shape ops rand frame car s2 h
  subst hs2
  exact ⟨rfl, rfl⟩

/-- Claim C10 witness: on the explicit demo state, whose omega field is 5,
one tick leaves omega at 5, and the constructed car has omega zero. -/
theorem c10_omega_never_updated_witness :
    (mkCar tinyOps 0 0 0 [0] [0] [0] 1).omega = 0 ∧
    (demoAfter 150).omega = demoCar.omega :=
  c10_omega_never_updated tinyOps 0 0 0 [0] [0] [0] 1 (fun _ => (150 : ℚ)) 0
    demoCar (demoAfter 150) (drive_demo 150)

/-- Claim C1 (amended): one tick of Car.drive is deterministic in the state
and the drawn throttle together: two successful runs from the same state
agree on the new pose, the steering command, the target index and the
cross-track error whatever the two draws were, and agree on everything, the
velocity included, exactly when the draws coincide.  The claim as stated,
determinism in the state and parameters alone, fails because the throttle
is drawn randomly inside Car.drive; see the counterexample. -/
theorem c1_tick_deterministic_up_to_throttle {α : Type}
    [LinearOrderedField α] (ops : MathOps α) (r1 r2 : ℕ → α) (n : ℕ)
    (car s1 s2 : Car α)
    (h1 : drive ops r1 n car = .ok s1) (h2 : drive ops r2 n car = .ok s2) :
    s1.x = s2.x ∧ s1.y = s2.y ∧ s1.yaw = s2.yaw ∧ s1.delta = s2.delta ∧
    s1.target_id = s2.target_id ∧ s1.crosstrack_error = s2.crosstrack_error ∧
    (r1 n = r2 n → s1 = s2) := by
  obtain ⟨d1, tid1, cte1, hstan1, hc1, hs1⟩ := drive_ok_shape ops r1 n car s1 h1
  obtain ⟨d2, tid2, cte2, hstan2, hc2, hs2⟩ := drive_ok_shape ops r2 n car s2 h2
  rw [hstan1] at hstan2
  simp only [Except.ok.injEq, Prod.mk.injEq] at hstan2
  obtain ⟨hd, htid, hcte⟩ := hstan2
  subst hd htid hcte
  subst hs1 hs2
  refine ⟨rfl, rfl, rfl, rfl, rfl, rfl, ?_⟩
  intro hr
  rw [hr]

/-- Claim C1 witness: the agreement of two successful demo ticks whose
throttle draws are 150 and 200. -/
theorem c1_tick_deterministic_up_to_throttle_witness :
    (demoAfter 150).x = (demoAfter 200).x ∧
    (demoAfter 150).y = (demoAfter 200).y ∧
    (demoAfter 150).yaw = (demoAfter 200).yaw ∧
    (demoAfter 150).delta = (demoAfter 200).delta ∧
    (demoAfter 150).target_id = (demoAfter 200).target_id ∧
    (demoAfter 150).crosstrack_error = (demoAfter 200).crosstrack_error ∧
    ((fun _ => (150 : ℚ)) 0 = (fun _ => (200 : ℚ)) 0 →
      demoAfter 150 = demoAfter 200) :=
  c1_tick_deterministic_up_to_throttle tinyOps (fun _ => (150 : ℚ))
    (fun _ => (200 : ℚ)) 0 demoCar (demoAfter 150) (demoAfter 200)
    (drive_demo 150) (drive_demo 200)

/-- Claim C1 counterexample: two runs of one tick from the same state, path
and parameters with throttle draws 150 and 200, both inside the documented
uniform(150, 200) range, produce different outputs (the velocities differ),
so the claim as stated is false of Car.drive. -/
theorem c1_two_runs_differ_counterexample :
    drive tinyOps (fun _ => (150 : ℚ)) 0 demoCar ≠
      drive tinyOps (fun _ => (200 : ℚ)) 0 demoCar := by
  rw [drive_demo 150, drive_demo 200]
  intro h
  have hv := congrArg Car.v (Except.ok.inj h)
  norm_num [demoAfter] at hv

/-- Claim C4: the steering command returned by the controller is exactly the
raw Stanley command (heading error plus the softened cross-track arctangent
correction plus the yaw-rate damping term, adjusted by the steering-rate
term) clamped to the steering bound; every steering command it returns has
magnitude at most the bound, and hence the steering angle stored by a tick
of Car.drive never exceeds the configured bound in magnitude. -/
theorem c4_steering_formula_and_clamp {α : Type} [LinearOrderedField α]
    (ops : MathOps α) (k ksoft kyaw ksteer ms wb : α) (px py pyaw : List α)
    (x y yaw v delta d : α) (tid : ℕ) (cte : α)
    (rand : ℕ → α) (frame : ℕ) (car s2 : Car α)
    (fx fy : α) (tid0 : ℕ) (cte0 he raw : α)
    (hfx : fx = frontAxleX ops wb x yaw)
    (hfy : fy = frontAxleY ops wb y yaw)
    (htid : tid0 = targetIdx ops px py fx fy)
    (hcte : cte0 = crossTrackAt ops px py pyaw tid0 fx fy)
    (hhe : he = headingError ops pyaw tid0 yaw)
    (hraw : raw = rawSteerCmd ops k ksoft kyaw wb he cte0 v delta)
    (hne : px ≠ []) (hm : 0 ≤ ms) (hcm : 0 ≤ car.max_steer)
    (hok : stanley_control ops k ksoft kyaw ksteer ms wb px py pyaw
        x y yaw v delta = .ok (d, tid, cte))
    (hdr : drive ops rand frame car = .ok s2) :
    stanley_control ops k ksoft kyaw ksteer ms wb px py pyaw x y yaw v delta =
      .ok (clip (-ms) ms (raw + ksteer * (raw - delta)), tid0, cte0) ∧
    |d| ≤ ms ∧ |s2.delta| ≤ car.max_steer := by
  subst hfx hfy htid hcte hhe hraw
  refine ⟨?_, stanleyOkAbsLe ops k ksoft kyaw ksteer ms wb px py pyaw
    x y yaw v delta d tid cte hm hok, ?_⟩
  · simp only [stanley_control]
    rw [if_neg hne]
    simp only [frontAxleX, frontAxleY, targetIdx, crossTrackAt, headingError,
      rawSteerCmd, stanleyDenom]
  · obtain ⟨d0, tid0, cte0, hstan, hc0, hs2⟩ :=
      drive_ok_shape ops rand frame car s2 hdr
    subst hs2
    exact stanleyOkAbsLe ops car.k car.ksoft car.kyaw car.ksteer
      car.max_steer car.wheelbase car.px car.py car.pyaw car.x car.y car.yaw
      car.v car.delta d0 tid0 cte0 hcm hstan

/-- Claim C4 witness: the formula and both bounds evaluated on the explicit
demo inputs. -/
theorem c4_steering_formula_and_clamp_witness :
    stanley_control tinyOps 1 1 0 0 1 2 [0, 1] [0, 0] [0, 0] 0 0 0 2 0 =
      .ok (clip (-1) 1 (-3 + 0 * (-3 - 0)), 1, 0) ∧
    |(-1 : ℚ)| ≤ 1 ∧ |(demoAfter 150).delta| ≤ demoCar.max_steer :=
  c4_steering_formula_and_clamp tinyOps 1 1 0 0 1 2 [0, 1] [0, 0] [0, 0]
    0 0 0 2 0 (-1) 1 0 (fun _ => (150 : ℚ)) 0 demoCar (demoAfter 150)
    1 0 1 0 0 (-3)
    (by norm_num [frontAxleX, tinyOps])
    (by norm_num [frontAxleY, tinyOps])
    (by norm_num [targetIdx, argminIdx, argminAux, tinyOps])
    (by norm_num [crossTrackAt, tinyOps, List.getD])
    (by norm_num [headingError, tinyOps, List.getD])
    (by norm_num [rawSteerCmd, stanleyDenom, tinyOps])
    (by simp)
    (by norm_num)
    (by norm_num [demoCar])
    stanley_demo
    (drive_demo 150)

theorem spline_demo :
    generate_cubic_spline tinyOps [0, 1] [0, 0] (1 / 2) =
      .ok ([0, 1 / 2, 1], [0, 1 / 2, 1], [0, 0, 0], [0, 0, 0]) := by
  have htot : totalChordLength tinyOps ([(0 : ℚ), 1].zip [0, 0]) = 1 := by
    norm_num [totalChordLength, chordLengths, tinyOps]
  have hcond : ¬ ((([(0 : ℚ), 1].zip [0, 0]).dedup.length < 2) ∨
      totalChordLength tinyOps ([(0 : ℚ), 1].zip [0, 0]) = 0) := by
    rw [htot]
    push_neg
    exact ⟨by decide, by norm_num⟩
  simp only [generate_cubic_spline]
  split
  case isTrue hpos => exact absurd hpos hcond
  case isFalse =>
    rw [htot]
    have hfl : (⌊(1 : ℚ) / (1 / 2)⌋) = 2 := by norm_num
    have htn : (⌊(1 : ℚ) / (1 / 2)⌋).toNat = 2 := by rw [hfl]; rfl
    simp only [sampleGrid, htn]
    have hr3 : List.range (2 + 1) = [0, 1, 2] := rfl
    rw [hr3]
    norm_num [tinyOps, curvatureAt]

/-- Claim C3: a successful path generation on a sampling interval ds returns
sample arrays of length floor of the total chord length over ds, plus one,
and the arc-length grid it samples advances by exactly ds between
consecutive samples everywhere before the final segment. -/
theorem c3_sample_count_and_spacing {α : Type} [LinearOrderedField α]
    [FloorRing α] [DecidableEq α] (ops : MathOps α) (xs ys : List α)
    (ds : α) (out : List α × List α × List α × List α) (i : ℕ)
    (h2 : 2 ≤ (xs.zip ys).dedup.length) (hds : 0 < ds)
    (hok : generate_cubic_spline ops xs ys ds = .ok out)
    (hi : i + 1 < (⌊totalChordLength ops (xs.zip ys) / ds⌋).toNat) :
    out.1.length = (⌊totalChordLength ops (xs.zip ys) / ds⌋).toNat + 1 ∧
    out.2.1.length = out.1.length ∧
    out.2.2.1.length = out.1.length ∧
    (sampleGrid (totalChordLength ops (xs.zip ys)) ds).getD (i + 1) 0 -
      (sampleGrid (totalChordLength ops (xs.zip ys)) ds).getD i 0 = ds := by
  simp only [generate_cubic_spline] at hok
  by_cases hc : ((xs.zip ys).dedup.length < 2 ∨
      totalChordLength ops (xs.zip ys) = 0)
  · rw [if_pos hc] at hok
    simp at hok
  · rw [if_neg hc] at hok
    simp only [Except.ok.injEq] at hok
    subst hok
    refine ⟨?_, ?_, ?_, ?_⟩
    · simp [sampleGrid_length]
    · simp
    · simp
    · rw [sampleGrid_getD _ _ _ hi, sampleGrid_getD _ _ _ (Nat.lt_of_succ_lt hi)]
      push_cast
      ring

/-- Claim C3 witness: the sample count and the first spacing evaluated on
two distinct explicit waypoints with ds one half. -/
theorem c3_sample_count_and_spacing_witness :
    (([(0 : ℚ), 1 / 2, 1], [(0 : ℚ), 1 / 2, 1], [(0 : ℚ), 0, 0],
        [(0 : ℚ), 0, 0]) :
        List ℚ × List ℚ × List ℚ × List ℚ).1.length =
      (⌊totalChordLength tinyOps ([(0 : ℚ), 1].zip [0, 0]) / (1 / 2)⌋).toNat
        + 1 ∧
    (([(0 : ℚ), 1 / 2, 1], [(0 : ℚ), 1 / 2, 1], [(0 : ℚ), 0, 0],
        [(0 : ℚ), 0, 0]) :
        List ℚ × List ℚ × List ℚ × List ℚ).2.1.length =
      (([(0 : ℚ), 1 / 2, 1], [(0 : ℚ), 1 / 2, 1], [(0 : ℚ), 0, 0],
        [(0 : ℚ), 0, 0]) :
        List ℚ × List ℚ × List ℚ × List ℚ).1.length ∧
    (([(0 : ℚ), 1 / 2, 1], [(0 : ℚ), 1 / 2, 1], [(0 : ℚ), 0, 0],
        [(0 : ℚ), 0, 0]) :
        List ℚ × List ℚ × List ℚ × List ℚ).2.2.1.length =
      (([(0 : ℚ), 1 / 2, 1], [(0 : ℚ), 1 / 2, 1], [(0 : ℚ), 0, 0],
        [(0 : ℚ), 0, 0]) :
        List ℚ × List ℚ × List ℚ × List ℚ).1.length ∧
    (sampleGrid (totalChordLength tinyOps ([(0 : ℚ), 1].zip [0, 0]))
        (1 / 2)).getD (0 + 1) 0 -
      (sampleGrid (totalChordLength tinyOps ([(0 : ℚ), 1].zip [0, 0]))
        (1 / 2)).getD 0 0 = 1 / 2 :=
  c3_sample_count_and_spacing tinyOps [0, 1] [0, 0] (1 / 2)
    ([0, 1 / 2, 1], [0, 1 / 2, 1], [0, 0, 0], [0, 0, 0]) 0
    (by decide) (by norm_num) spline_demo
    (by norm_num [totalChordLength, chordLengths, tinyOps])

/-- Claim C6: path generation fails with the degenerate-input error exactly
when fewer than 2 distinct waypoints are supplied or the total chord length
is zero, and on every other input it succeeds with a path. -/
theorem c6_degenerate_input_error_iff {α : Type} [LinearOrderedField α]
    [FloorRing α] [DecidableEq α] (ops : MathOps α) (xs ys : List α)
    (ds : α) :
    (generate_cubic_spline ops xs ys ds = .error .degenerateInput ↔
      ((xs.zip ys).dedup.length < 2 ∨
        totalChordLength ops (xs.zip ys) = 0)) ∧
    (¬ ((xs.zip ys).dedup.length < 2 ∨
        totalChordLength ops (xs.zip ys) = 0) →
      ∃ out, generate_cubic_spline ops xs ys ds = .ok out) := by
  by_cases hc : ((xs.zip ys).dedup.length < 2 ∨
      totalChordLength ops (xs.zip ys) = 0)
  · refine ⟨⟨fun _ => hc, fun _ => ?_⟩, fun hn => absurd hc hn⟩
    simp only [generate_cubic_spline]
    rw [if_pos hc]
  · refine ⟨⟨fun he => ?_, fun h => absurd h hc⟩, fun _ => ?_⟩
    · exfalso
      simp only [generate_cubic_spline] at he
      rw [if_neg hc] at he
      simp at he
    · refine ⟨((sampleGrid (totalChordLength ops (xs.zip ys)) ds).map
          (ops.interp (chordKnots ops (xs.zip ys)) xs),
        (sampleGrid (totalChordLength ops (xs.zip ys)) ds).map
          (ops.interp (chordKnots ops (xs.zip ys)) ys),
        (sampleGrid (totalChordLength ops (xs.zip ys)) ds).map
          (fun t => ops.atan2 (ops.interpD (chordKnots ops (xs.zip ys)) ys t)
            (ops.interpD (chordKnots ops (xs.zip ys)) xs t)),
        (sampleGrid (totalChordLength ops (xs.zip ys)) ds).map
          (curvatureAt ops (chordKnots ops (xs.zip ys)) xs ys)), ?_⟩
      simp only [generate_cubic_spline]
      rw [if_neg hc]

/-- Claim C6 witness: two coincident waypoints make path generation fail
with the degenerate-input error. -/
theorem c6_degenerate_input_error_iff_witness :
    generate_cubic_spline tinyOps [0, 0] [0, 0] 1 =
      .error .degenerateInput :=
  (c6_degenerate_input_error_iff tinyOps [0, 0] [0, 0] 1).1.mpr
    (Or.inl (by decide))
